import Mathlib

/-!
# Verification of the Funda price scraper (`src/prices.py`)

Shallow embedding of the scraper's core logic. HTML documents (the
BeautifulSoup trees) are modelled as a forest of `Node` values; the HTTP
transport plus the HTML parser are modelled together as an oracle
`net : String → Nat × Doc` mapping a URL to the response status code and the
parsed response body. Python operations that can raise (`int`, `max` of an
empty sequence, `.find` returning `None` followed by attribute access, a list
comprehension whose body raises) are modelled with `Option`: `none` means the
exception propagates. A run of `export_prices` returns `some rows` for the
rows written to the CSV file, and `none` when an uncaught exception aborts the
run before the file is opened (the source builds the whole `price_list` in
memory before `open`, so no file exists on a failed run).
-/

namespace Funda

/-- An HTML node: an element with a tag, attributes, CSS classes and
children, or a text node. Models the BeautifulSoup tree. -/
inductive Node where
  | elem (tag : String) (attrs : List (String × String)) (classes : List String)
      (children : List Node)
  | text (s : String)

/-- A parsed document (BeautifulSoup object): a forest of nodes. The empty
document `BeautifulSoup('')` is `[]`. -/
abbrev Doc := List Node

mutual
/-- `.text` of a BeautifulSoup node: concatenation of all text in the
subtree, in document order. -/
def Node.textContent : Node → String
  | .text s => s
  | .elem _ _ _ ch => textContentList ch
/-- `.text` concatenated over a list of sibling nodes. -/
def textContentList : List Node → String
  | [] => ""
  | n :: ns => n.textContent ++ textContentList ns
end

mutual
/-- A node together with all its descendant nodes, in document (pre-)order. -/
def selfAndDescendants : Node → List Node
  | .text s => [.text s]
  | .elem t a c ch => .elem t a c ch :: selfAndDescendantsList ch
/-- `selfAndDescendants` concatenated over a list of sibling nodes. -/
def selfAndDescendantsList : List Node → List Node
  | [] => []
  | n :: ns => selfAndDescendants n ++ selfAndDescendantsList ns
end

/-- All nodes of a document in document order (what BeautifulSoup's
searches on the soup object traverse). -/
def docNodes (doc : Doc) : List Node := selfAndDescendantsList doc

/-- The descendant nodes of a node, excluding the node itself (what
`tag.find` / `tag.find_all` traverse). -/
def Node.descendants : Node → List Node
  | .text _ => []
  | .elem _ _ _ ch => selfAndDescendantsList ch

/-- Does the node have the given tag name? -/
def Node.tagIs (nd : Node) (t : String) : Bool :=
  match nd with
  | .elem tg _ _ _ => tg = t
  | .text _ => false

/-- Does the element carry the given attribute? -/
def Node.hasAttr (nd : Node) (key : String) : Bool :=
  match nd with
  | .elem _ attrs _ _ => attrs.any (fun p => p.1 = key)
  | .text _ => false

/-- `tag[key]`: the attribute's value, `none` when absent. -/
def Node.getAttr? (nd : Node) (key : String) : Option String :=
  match nd with
  | .elem _ attrs _ _ => attrs.lookup key
  | .text _ => none

/-- BeautifulSoup `class_=c` matching: `c` is among the element's classes. -/
def Node.hasClass (nd : Node) (c : String) : Bool :=
  match nd with
  | .elem _ _ classes _ => classes.contains c
  | .text _ => false

/-- `soup.select('a[data-pagination-page]')`: all `a` elements of the
document carrying the `data-pagination-page` attribute, in document order. -/
def selectPaginationLinks (doc : Doc) : List Node :=
  (docNodes doc).filter (fun nd => nd.tagIs "a" && nd.hasAttr "data-pagination-page")

/-- `doc.find_all(t, class_=c)` on a whole document. -/
def findAllTagClass (doc : Doc) (t c : String) : List Node :=
  (docNodes doc).filter (fun nd => nd.tagIs t && nd.hasClass c)

/-- `html.find_all('li', class_='search-result')`. -/
def findAllSearchResults (doc : Doc) : List Node :=
  findAllTagClass doc "li" "search-result"

/-- `tag.find(t, class_=c)`: the first matching descendant in document
order, `none` when there is none. -/
def Node.findTagClass (house : Node) (t c : String) : Option Node :=
  (house.descendants.filter (fun nd => nd.tagIs t && nd.hasClass c)).head?

/-! ## Python string primitives used by the source -/

/-- Whitespace characters removed by Python's `str.strip()` (ASCII range). -/
def isPySpace (c : Char) : Bool :=
  c = ' ' || c = '\t' || c = '\n' || c = '\r' || c = '\x0B' || c = '\x0C'

/-- Python `str.strip()`: remove leading and trailing whitespace. -/
def pyStrip (s : String) : String :=
  ⟨List.rdropWhile isPySpace (s.data.dropWhile isPySpace)⟩

/-- Scanner for Python `str.replace(pat, rep)`. The `skip` counter is the
number of characters of an already-matched occurrence still to consume; at
`skip = 0` the scanner looks for the leftmost occurrence of `pat`, emits
`rep` in its place and skips past it, so matches are non-overlapping and
found left to right, exactly as in CPython. -/
def replaceAux (pat rep : List Char) : List Char → Nat → List Char
  | [], _ => []
  | _ :: rest, Nat.succ k => replaceAux pat rep rest k
  | c :: rest, 0 =>
      if pat.isPrefixOf (c :: rest) then
        rep ++ replaceAux pat rep rest (pat.length - 1)
      else
        c :: replaceAux pat rep rest 0

/-- Python `s.replace(pat, rep)` (for the non-empty patterns the source
uses). -/
def pyReplace (s pat rep : String) : String :=
  ⟨replaceAux pat.data rep.data s.data 0⟩

/-- Value of a digit string. -/
def digitsToNat (ds : List Char) : Nat :=
  ds.foldl (fun n c => 10 * n + (c.toNat - Char.toNat '0')) 0

/-- Python `int(s)` on a decimal string: strips surrounding whitespace,
allows one optional sign, then requires a non-empty run of digits; anything
else raises `ValueError`, modelled as `none`. (Underscore digit separators,
which never occur in this program's inputs, are not modelled.) -/
def pyInt? (s : String) : Option Int :=
  match (pyStrip s).data with
  | '-' :: ds =>
      if !ds.isEmpty && ds.all Char.isDigit then some (-(digitsToNat ds : Int)) else none
  | '+' :: ds =>
      if !ds.isEmpty && ds.all Char.isDigit then some ((digitsToNat ds : Int)) else none
  | ds =>
      if !ds.isEmpty && ds.all Char.isDigit then some ((digitsToNat ds : Int)) else none

/-- A Python list comprehension `[f x for x in l]` whose body may raise:
`none` as soon as any element raises, otherwise the list of results. -/
def mapOption {α β : Type} (f : α → Option β) : List α → Option (List β)
  | [] => some []
  | a :: l => do
      let b ← f a
      let bs ← mapOption f l
      some (b :: bs)

/-- Python `max` over a sequence of ints: `ValueError` (`none`) on an empty
sequence. -/
def listMax? : List Int → Option Int
  | [] => none
  | a :: l => some (l.foldl max a)

/-! ## The source functions of `src/prices.py` -/

/-- `COLUMN_HEADERS = ['Address', 'Price (euro)']`. -/
def COLUMN_HEADERS : List String := ["Address", "Price (euro)"]

/-- `get_html(url)`: issue the GET; on status 200 parse the body, otherwise
return the empty document `BeautifulSoup('')`. -/
def get_html (net : String → Nat × Doc) (url : String) : Doc :=
  if (net url).1 = 200 then (net url).2 else []

/-- `clean_address(raw_address)`: `raw_address.strip()`. -/
def clean_address (raw_address : String) : String :=
  pyStrip raw_address

/-- `clean_price(raw_price)`: the source's chain of `.replace` calls, then
`int(...)`. -/
def clean_price (raw_price : String) : Option Int :=
  pyInt? (pyReplace (pyReplace (pyReplace (pyReplace (pyReplace (pyReplace
    raw_price "€ " "") " k.k." "") " v.o.n." "") "Price on request" "0") "." "") "," "")

/-- `parse_address(house_html)`: text of the first
`h2.search-result__header-title` descendant, cleaned; `none` models the
`AttributeError` raised on `.text` when `find` returns `None`. -/
def parse_address (house_html : Node) : Option String :=
  (house_html.findTagClass "h2" "search-result__header-title").map
    (fun h => clean_address h.textContent)

/-- `parse_price(house_html)`: text of the first `span.search-result-price`
descendant, cleaned and parsed. -/
def parse_price (house_html : Node) : Option Int :=
  (house_html.findTagClass "span" "search-result-price").bind
    (fun sp => clean_price sp.textContent)

/-- `price_row(house_html)`: the `(address, price)` tuple. -/
def price_row (house_html : Node) : Option (String × Int) := do
  let a ← parse_address house_html
  let p ← parse_price house_html
  some (a, p)

/-- The generator `(int(a['data-pagination-page']) for a in page_links)`
evaluated by `max`: `none` when any attribute value fails to parse. -/
def paginationNums (doc : Doc) : Option (List Int) :=
  mapOption (fun nd => (nd.getAttr? "data-pagination-page").bind pyInt?)
    (selectPaginationLinks doc)

/-- `construct_page_urls(base_url)`: fetch the seed page, take the maximum
pagination index, produce `base_url/p1 … base_url/p{n}`. -/
def construct_page_urls (net : String → Nat × Doc) (base_url : String) :
    Option (List String) := do
  let html := get_html net base_url
  let nums ← paginationNums html
  let num_of_pages ← listMax? nums
  some ((List.range' 1 num_of_pages.toNat).map (fun i => base_url ++ "/p" ++ toString i))

/-- `search(page_urls)`: the `li.search-result` fragments of every page,
in page order and, within a page, document order. -/
def search (net : String → Nat × Doc) (page_urls : List String) : List Node :=
  (page_urls.map (fun url => findAllSearchResults (get_html net url))).flatten

/-- The CSV cells `csv.writer` emits for one `(address, price)` tuple:
the address and the decimal rendering of the price. -/
def price_cells (r : String × Int) : List String :=
  [r.1, toString r.2]

/-- `export_prices(base_url, csv_file)`: the rows written to the CSV file
(header first), or `none` when an uncaught exception aborts the run; the
source computes `price_list` fully before opening the file, so `none` also
means no file is created. -/
def export_prices (net : String → Nat × Doc) (base_url : String) :
    Option (List (List String)) := do
  let page_urls ← construct_page_urls net base_url
  let houses := search net page_urls
  let price_list ← mapOption price_row houses
  some (COLUMN_HEADERS :: price_list.map price_cells)

/-- The price normalization pipeline exactly as the spec words it: remove
`"€ "`, remove `" k.k."`, remove `" v.o.n."`, replace `"Price on request"`
with `"0"`, remove all `'.'`, remove all `','`, in this order. -/
def specPriceNormalize (s : String) : String :=
  pyReplace (pyReplace (pyReplace (pyReplace (pyReplace (pyReplace
    s "€ " "") " k.k." "") " v.o.n." "") "Price on request" "0") "." "") "," ""

/-! ## Helper lemmas -/

theorem mapOption_eq_none_of_mem {α β : Type} {f : α → Option β} {l : List α} {x : α}
    (hx : x ∈ l) (hfx : f x = none) : mapOption f l = none := by
  induction l with
  | nil => cases hx
  | cons a t ih =>
    rcases List.mem_cons.mp hx with rfl | hmem
    · simp [mapOption, hfx]
    · cases hfa : f a with
      | none => simp [mapOption, hfa]
      | some b => simp [mapOption, hfa, ih hmem]

theorem mapOption_forall₂ {α β : Type} {f : α → Option β} :
    ∀ {l : List α} {bs : List β}, mapOption f l = some bs →
      List.Forall₂ (fun a b => f a = some b) l bs := by
  intro l
  induction l with
  | nil =>
    intro bs h
    simp only [mapOption] at h
    injection h with h
    subst h
    exact List.Forall₂.nil
  | cons a t ih =>
    intro bs h
    cases hfa : f a with
    | none => simp [mapOption, hfa] at h
    | some b =>
      cases hm : mapOption f t with
      | none => simp [mapOption, hfa, hm] at h
      | some cs =>
        simp [mapOption, hfa, hm] at h
        exact h ▸ List.Forall₂.cons hfa (ih hm)

theorem mapOption_length {α β : Type} {f : α → Option β} {l : List α} {bs : List β}
    (h : mapOption f l = some bs) : bs.length = l.length :=
  (List.Forall₂.length_eq (mapOption_forall₂ h)).symm

theorem search_cons (net : String → Nat × Doc) (u : String) (us : List String) :
    search net (u :: us) = findAllSearchResults (get_html net u) ++ search net us := rfl

theorem search_append (net : String → Nat × Doc) (l1 l2 : List String) :
    search net (l1 ++ l2) = search net l1 ++ search net l2 := by
  induction l1 with
  | nil => rfl
  | cons u us ih => simp [search_cons, ih]

theorem search_eq_nil (net : String → Nat × Doc) (urls : List String)
    (h : ∀ u ∈ urls, get_html net u = []) : search net urls = [] := by
  induction urls with
  | nil => rfl
  | cons u us ih =>
    have h1 : get_html net u = [] := h u (List.mem_cons_self u us)
    rw [search_cons, h1, ih (fun v hv => h v (List.mem_cons_of_mem u hv))]
    rfl

theorem mem_replaceAux (pat rep : List Char) :
    ∀ (l : List Char) (k : Nat) (c : Char),
      c ∈ replaceAux pat rep l k → c ∈ rep ∨ c ∈ l := by
  intro l
  induction l with
  | nil => intro k c h; simp [replaceAux] at h
  | cons a t ih =>
    intro k c h
    cases k with
    | succ k' =>
      simp only [replaceAux] at h
      rcases ih k' c h with h1 | h1
      · exact Or.inl h1
      · exact Or.inr (List.mem_cons_of_mem a h1)
    | zero =>
      simp only [replaceAux] at h
      by_cases hp : pat.isPrefixOf (a :: t)
      · rw [if_pos hp] at h
        rcases List.mem_append.mp h with h1 | h1
        · exact Or.inl h1
        · rcases ih (pat.length - 1) c h1 with h2 | h2
          · exact Or.inl h2
          · exact Or.inr (List.mem_cons_of_mem a h2)
      · rw [if_neg hp] at h
        rcases List.mem_cons.mp h with h1 | h1
        · exact Or.inr (h1 ▸ List.mem_cons_self a t)
        · rcases ih 0 c h1 with h2 | h2
          · exact Or.inl h2
          · exact Or.inr (List.mem_cons_of_mem a h2)

theorem mem_pyReplace {c : Char} {s pat rep : String}
    (h : c ∈ (pyReplace s pat rep).data) : c ∈ rep.data ∨ c ∈ s.data :=
  mem_replaceAux pat.data rep.data s.data 0 c h

theorem mem_pyStrip {c : Char} {s : String} (h : c ∈ (pyStrip s).data) : c ∈ s.data := by
  have h1 : c ∈ s.data.dropWhile isPySpace :=
    (List.rdropWhile_prefix isPySpace (s.data.dropWhile isPySpace)).subset h
  exact (List.dropWhile_suffix isPySpace).subset h1

theorem pyInt?_nonneg {s : String} {p : Int}
    (hs : '-' ∉ s.data) (h : pyInt? s = some p) : 0 ≤ p := by
  have hm : '-' ∉ (pyStrip s).data := fun hc => hs (mem_pyStrip hc)
  unfold pyInt? at h
  split at h
  · rename_i ds heq
    rw [heq] at hm
    exact absurd (List.mem_cons_self _ _) hm
  · split at h
    · injection h with h
      omega
    · cases h
  · split at h
    · injection h with h
      omega
    · cases h

theorem not_of_dropWhile_eq_cons {α : Type} (p : α → Bool) :
    ∀ (l : List α) (a : α) (t : List α), l.dropWhile p = a :: t → p a = false := by
  intro l
  induction l with
  | nil => intro a t h; simp [List.dropWhile] at h
  | cons b l' ih =>
    intro a t h
    by_cases hb : p b
    · rw [List.dropWhile_cons, if_pos hb] at h
      exact ih a t h
    · rw [List.dropWhile_cons, if_neg hb] at h
      cases h
      simpa using hb

theorem dropWhile_rdropWhile_self {α : Type} (p : α → Bool) (l : List α) :
    (List.rdropWhile p (l.dropWhile p)).dropWhile p = List.rdropWhile p (l.dropWhile p) := by
  cases hy : List.rdropWhile p (l.dropWhile p) with
  | nil => rfl
  | cons a y2 =>
    obtain ⟨t, ht⟩ := List.rdropWhile_prefix p (l.dropWhile p)
    rw [hy] at ht
    have heq2 : l.dropWhile p = a :: (y2 ++ t) := by rw [← ht]; rfl
    have hd2 : (l.dropWhile p).dropWhile p = l.dropWhile p := List.dropWhile_idempotent p l
    have hna : p a = false :=
      not_of_dropWhile_eq_cons p (l.dropWhile p) a (y2 ++ t) (by rw [hd2]; exact heq2)
    simp [List.dropWhile_cons, hna]

theorem pyStrip_idem (s : String) : pyStrip (pyStrip s) = pyStrip s := by
  show (⟨List.rdropWhile isPySpace ((pyStrip s).data.dropWhile isPySpace)⟩ : String) = pyStrip s
  have hdata : (pyStrip s).data = List.rdropWhile isPySpace (s.data.dropWhile isPySpace) := rfl
  rw [hdata, dropWhile_rdropWhile_self, List.rdropWhile_idempotent]
  rfl

/-! ## Concrete HTML fixtures used by witnesses -/

/-- A pagination link `<a data-pagination-page="n">`. -/
def aTag (n : Nat) : Node :=
  .elem "a" [("data-pagination-page", toString n)] [] []

/-- A listing fragment `<li class="search-result">` with a title heading and
a price span. -/
def house (addr price : String) : Node :=
  .elem "li" [] ["search-result"]
    [.elem "h2" [] ["search-result__header-title"] [.text addr],
     .elem "span" [] ["search-result-price"] [.text price]]

/-- A seed page whose pagination markers are 1, 2, 3. -/
def seedPage3 : Doc := [.elem "div" [] [] [aTag 1, aTag 2, aTag 3]]

/-- A site serving only the seed page (with pagination up to 3); every other
URL answers 404. -/
def net3 : String → Nat × Doc := fun url =>
  if url = "https://x/koop/y" then (200, seedPage3) else (404, [])

/-- A site with pagination markers 1 and 2, two listings on page 1 and one
on page 2. -/
def net2 : String → Nat × Doc := fun url =>
  if url = "https://x/koop/q" then (200, [.elem "div" [] [] [aTag 1, aTag 2]])
  else if url = "https://x/koop/q/p1" then
    (200, [house "Addr 1" "€ 350.000 k.k.", house "Addr 2" "€ 1,250.000 v.o.n."])
  else if url = "https://x/koop/q/p2" then (200, [house "Addr 3" "Price on request"])
  else (404, [])

/-- A site whose single result page contains a listing with an
unrecognized price string. -/
def netBad : String → Nat × Doc := fun url =>
  if url = "https://x/koop/z" then (200, [.elem "div" [] [] [aTag 1]])
  else if url = "https://x/koop/z/p1" then (200, [house "Addr 1" "N/A"])
  else (404, [])

/-- A site serving only the seed page (pagination 1, 2); both result pages
answer 404. -/
def netSeedOnly : String → Nat × Doc := fun url =>
  if url = "https://x/koop/w" then (200, [.elem "div" [] [] [aTag 1, aTag 2]])
  else (404, [])

/-- A listing fragment whose heading contains padded text. -/
def titledHouse : Node :=
  .elem "li" [] ["search-result"]
    [.elem "h2" [] ["search-result__header-title"] [.text "  Main St 1  "]]

/-- A listing fragment with no title heading at all. -/
def untitledHouse : Node :=
  .elem "li" [] ["search-result"] [.text "no heading"]

/-! ## The claims -/

/-- C1: `clean_price` removes `"€ "`, `" k.k."`, `" v.o.n."`, replaces
`"Price on request"` with `"0"`, removes all `'.'` and all `','`, in this
exact order, then parses the remainder as an integer; in particular
`clean_price "€ 350.000 k.k." = 350000`,
`clean_price "€ 1,250.000 v.o.n." = 1250000` and
`clean_price "Price on request" = 0`. -/
theorem C1_clean_price_normalization :
    (∀ s, clean_price s = pyInt? (specPriceNormalize s)) ∧
    clean_price "€ 350.000 k.k." = some 350000 ∧
    clean_price "€ 1,250.000 v.o.n." = some 1250000 ∧
    clean_price "Price on request" = some 0 :=
  ⟨fun _ => rfl, rfl, rfl, rfl⟩

/-- C10: `clean_address` is idempotent: re-cleaning an already-cleaned
address never changes it. -/
theorem C10_clean_address_idempotent (s : String) :
    clean_address (clean_address s) = clean_address s :=
  pyStrip_idem s

/-- C10 witness: idempotence at a concrete padded address. -/
theorem C10_witness :
    clean_address (clean_address " Oudegracht 5\t") = clean_address " Oudegracht 5\t" :=
  C10_clean_address_idempotent " Oudegracht 5\t"

/-- C7 counterexample: `clean_price` succeeds on the price string `"-1"`
with the negative result `-1`, so not every successfully parsed price is
non-negative. -/
theorem C7_counterexample :
    clean_price "-1" = some (-1) ∧ ¬ (0 : Int) ≤ -1 :=
  ⟨rfl, by decide⟩

/-- C7 (amended): for every price string containing no `'-'` character on
which `clean_price` succeeds, the resulting price is non-negative, and the
sentinel `"Price on request"` parses to 0. -/
theorem C7_clean_price_nonneg (s : String) (p : Int)
    (h : clean_price s = some p) (hs : '-' ∉ s.data) :
    0 ≤ p ∧ clean_price "Price on request" = some 0 := by
  refine ⟨?_, rfl⟩
  have hchain : '-' ∉ (specPriceNormalize s).data := by
    intro hc
    unfold specPriceNormalize at hc
    rcases mem_pyReplace hc with h1 | h1
    · exact absurd h1 (by decide)
    rcases mem_pyReplace h1 with h2 | h2
    · exact absurd h2 (by decide)
    rcases mem_pyReplace h2 with h3 | h3
    · exact absurd h3 (by decide)
    rcases mem_pyReplace h3 with h4 | h4
    · exact absurd h4 (by decide)
    rcases mem_pyReplace h4 with h5 | h5
    · exact absurd h5 (by decide)
    rcases mem_pyReplace h5 with h6 | h6
    · exact absurd h6 (by decide)
    exact hs h6
  exact pyInt?_nonneg hchain h

/-- C7 witness: `clean_price "€ 350.000 k.k."` succeeds, contains no
`'-'`, and its result is non-negative. -/
theorem C7_witness :
    (0 : Int) ≤ 350000 ∧ clean_price "Price on request" = some 0 :=
  C7_clean_price_nonneg "€ 350.000 k.k." 350000 rfl (by decide)

/-- C8: `parse_address` returns the text of the fragment's first
`h2.search-result__header-title` descendant with surrounding whitespace
stripped, and propagates an error (`none`) when that heading is absent;
`clean_address "  Main St 1  " = "Main St 1"`. -/
theorem C8_parse_address_spec (house_html : Node) :
    (∀ hd, house_html.findTagClass "h2" "search-result__header-title" = some hd →
        parse_address house_html = some (pyStrip hd.textContent)) ∧
    (house_html.findTagClass "h2" "search-result__header-title" = none →
        parse_address house_html = none) ∧
    clean_address "  Main St 1  " = "Main St 1" := by
  refine ⟨?_, ?_, rfl⟩
  · intro hd hfind
    simp [parse_address, hfind, clean_address]
  · intro hfind
    simp [parse_address, hfind]

/-- C8 witness: on a fragment with a padded heading the address comes back
trimmed, and on a fragment without a heading the parse fails. -/
theorem C8_witness :
    parse_address titledHouse = some "Main St 1" ∧ parse_address untitledHouse = none := by
  constructor
  · exact (C8_parse_address_spec titledHouse).1
      (.elem "h2" [] ["search-result__header-title"] [.text "  Main St 1  "]) rfl
  · exact (C8_parse_address_spec untitledHouse).2.1 rfl

/-- C3: when the fetched seed document's pagination attributes parse to
`nums` with maximum `n`, `construct_page_urls` returns exactly
`[base/p1, …, base/pn]`, in ascending page order. -/
theorem C3_construct_page_urls (net : String → Nat × Doc) (base : String)
    (nums : List Int) (n : Int)
    (h1 : paginationNums (get_html net base) = some nums)
    (h2 : listMax? nums = some n) :
    construct_page_urls net base =
      some ((List.range' 1 n.toNat).map (fun i => base ++ "/p" ++ toString i)) := by
  simp [construct_page_urls, h1, h2]

/-- C3 witness: with pagination markers 1, 2, 3 on the seed page, the page
URLs are exactly `…/p1`, `…/p2`, `…/p3`. -/
theorem C3_witness :
    construct_page_urls net3 "https://x/koop/y" =
      some ["https://x/koop/y/p1", "https://x/koop/y/p2", "https://x/koop/y/p3"] := by
  have h := C3_construct_page_urls net3 "https://x/koop/y" [1, 2, 3] 3 rfl rfl
  exact h

/-- C6: when the fetched seed document has no element with a
`data-pagination-page` attribute, `construct_page_urls` fails (`max` of an
empty sequence raises, propagating as a fatal error). -/
theorem C6_no_pagination (net : String → Nat × Doc) (base : String)
    (h : selectPaginationLinks (get_html net base) = []) :
    construct_page_urls net base = none := by
  simp [construct_page_urls, paginationNums, h, mapOption, listMax?]

/-- C6 witness: the seed URL answers 404, so the (empty) document has no
pagination links and URL construction fails. -/
theorem C6_witness : construct_page_urls net3 "https://other" = none :=
  C6_no_pagination net3 "https://other" rfl

/-- C4: a non-200 response makes `get_html` return the empty document
rather than an error, every selector query on that document yields zero
matches, and such a page contributes an empty sequence of listing
fragments to `search`. -/
theorem C4_get_html_fail_soft (net : String → Nat × Doc) (url : String)
    (h : (net url).1 ≠ 200) :
    get_html net url = [] ∧
    (∀ t c, findAllTagClass (get_html net url) t c = []) ∧
    selectPaginationLinks (get_html net url) = [] ∧
    (∀ pre post, search net (pre ++ url :: post) = search net pre ++ search net post) := by
  have hg : get_html net url = [] := by simp [get_html, h]
  refine ⟨hg, ?_, ?_, ?_⟩
  · intro t c
    rw [hg]
    rfl
  · rw [hg]
    rfl
  · intro pre post
    rw [search_append, search_cons, hg]
    rfl

/-- C4 witness: a 404 URL yields the empty document, zero matches for the
scraper's selectors, and no contribution to the search results. -/
theorem C4_witness :
    get_html net3 "https://nope" = [] ∧
    findAllTagClass (get_html net3 "https://nope") "li" "search-result" = [] ∧
    selectPaginationLinks (get_html net3 "https://nope") = [] ∧
    search net3 (["https://x/koop/y"] ++ "https://nope" :: []) =
      search net3 ["https://x/koop/y"] ++ search net3 [] := by
  obtain ⟨h1, h2, h3, h4⟩ := C4_get_html_fail_soft net3 "https://nope" (by decide)
  exact ⟨h1, h2 "li" "search-result", h3, h4 ["https://x/koop/y"] []⟩

/-- C2: when pagination resolution succeeds but some listing fragment fails
to parse (address or price), `export_prices` aborts before any file row is
produced: no output file exists. -/
theorem C2_no_file_on_parse_failure (net : String → Nat × Doc) (base : String)
    (urls : List String) (house_html : Node)
    (h1 : construct_page_urls net base = some urls)
    (h2 : house_html ∈ search net urls)
    (h3 : price_row house_html = none) :
    export_prices net base = none := by
  have hm : mapOption price_row (search net urls) = none :=
    mapOption_eq_none_of_mem h2 h3
  simp [export_prices, h1, hm]

/-- C2 witness: a run whose single listing has the unparseable price
`"N/A"` produces no output file. -/
theorem C2_witness : export_prices netBad "https://x/koop/z" = none :=
  C2_no_file_on_parse_failure netBad "https://x/koop/z" ["https://x/koop/z/p1"]
    (house "Addr 1" "N/A") rfl (by exact List.Mem.head _) rfl

/-- C5: a successful run writes exactly one header row followed by one row
per extracted listing, in extraction order (ascending page order, document
order within a page, by construction of `construct_page_urls` and
`search`); the row count is the listing count plus 1. -/
theorem C5_export_shape (net : String → Nat × Doc) (base : String)
    (urls : List String) (f : List (List String))
    (h1 : construct_page_urls net base = some urls)
    (h2 : export_prices net base = some f) :
    f.head? = some COLUMN_HEADERS ∧
    List.Forall₂ (fun house_html row => (price_row house_html).map price_cells = some row)
      (search net urls) f.tail ∧
    f.length = (search net urls).length + 1 := by
  simp only [export_prices, h1, Option.bind_eq_bind, Option.some_bind] at h2
  cases hm : mapOption price_row (search net urls) with
  | none =>
    rw [hm] at h2
    cases h2
  | some recs =>
    rw [hm] at h2
    simp only [Option.some_bind, Option.some.injEq] at h2
    have hf : f = COLUMN_HEADERS :: recs.map price_cells := h2.symm
    subst hf
    refine ⟨rfl, ?_, ?_⟩
    · show List.Forall₂ _ (search net urls) (recs.map price_cells)
      rw [List.forall₂_map_right_iff]
      exact (mapOption_forall₂ hm).imp (fun a b hab => by rw [hab]; rfl)
    · simp [mapOption_length hm]

/-- C5 witness: the end-to-end run over `net2` (pagination 1–2, three
listings in total) produces the header plus three rows, in page-then-
document order. -/
theorem C5_witness :
    ([["Address", "Price (euro)"], ["Addr 1", "350000"], ["Addr 2", "1250000"],
      ["Addr 3", "0"]] : List (List String)).head? = some COLUMN_HEADERS ∧
    List.Forall₂ (fun house_html row => (price_row house_html).map price_cells = some row)
      (search net2 ["https://x/koop/q/p1", "https://x/koop/q/p2"])
      ([["Address", "Price (euro)"], ["Addr 1", "350000"], ["Addr 2", "1250000"],
        ["Addr 3", "0"]] : List (List String)).tail ∧
    ([["Address", "Price (euro)"], ["Addr 1", "350000"], ["Addr 2", "1250000"],
      ["Addr 3", "0"]] : List (List String)).length =
      (search net2 ["https://x/koop/q/p1", "https://x/koop/q/p2"]).length + 1 :=
  C5_export_shape net2 "https://x/koop/q" ["https://x/koop/q/p1", "https://x/koop/q/p2"]
    [["Address", "Price (euro)"], ["Addr 1", "350000"], ["Addr 2", "1250000"], ["Addr 3", "0"]]
    rfl rfl

/-- C9: if pagination resolution succeeds but every result page answers a
non-200 status, the run still succeeds and writes exactly the header row:
zero listings is not an error. -/
theorem C9_header_only (net : String → Nat × Doc) (base : String) (urls : List String)
    (h1 : construct_page_urls net base = some urls)
    (h2 : ∀ u ∈ urls, (net u).1 ≠ 200) :
    export_prices net base = some [COLUMN_HEADERS] := by
  have hs : search net urls = [] :=
    search_eq_nil net urls (fun u hu => by simp [get_html, h2 u hu])
  simp [export_prices, h1, hs, mapOption]

/-- C9 witness: a seed with pagination 1 and 2 whose result pages both
answer 404 exports a file with only the header row. -/
theorem C9_witness : export_prices netSeedOnly "https://x/koop/w" = some [COLUMN_HEADERS] :=
  C9_header_only netSeedOnly "https://x/koop/w"
    ["https://x/koop/w/p1", "https://x/koop/w/p2"] rfl (by decide)

end Funda
